import Mathlib

/-!
# Invoicing service: formal model and verification

A shallow embedding of the invoicing CRUD service:
`app/routes/invoices.py` (routes `create_invoice`, `list_invoices`,
`get_invoice`, `delete_invoice` and the helper `calculate_invoice_totals`)
over the relational schema of `migrations/002_create_invoicing_tables.py`
(tables `clients`, `products`, `invoices`, `invoice_items`).

Modelling conventions:
* SQLite `REAL` / Python `float` amounts are modelled as `ℚ` (all amounts in
  the development are exactly representable, e.g. `70.0 * 0.10 = 7.0` holds
  in IEEE doubles as well as in `ℚ`).
* `DATE` columns are carried as opaque strings (no date arithmetic occurs).
* A database state is a record of the four tables plus the `AUTOINCREMENT`
  counters for `invoices.id` and `invoice_items.id`.
* `SELECT ... WHERE id = ?` is `List.find?`; `DELETE ... WHERE ...` is
  `List.filter` with the negated condition; `INSERT` appends; SQL inner
  `JOIN` is `List.filterMap` through `List.find?` on the joined table;
  `ORDER BY id DESC` is an insertion sort on the id key, descending.
* An HTTP endpoint is a function from request and state to
  `Except HTTPError result` (reads) or `Except HTTPError (result × DB)`
  (writes); `HTTPException(status, detail)` becomes `.error`.
* `app.database.get_db` is not among the sources; per the specification its
  context manager commits on success and rolls back on any exception, so an
  `.error` outcome leaves the store at its prior value (`runCreate`).

A deliberate point of fidelity: `app/routes/invoices.py` never imports
`sqlite3`, yet `create_invoice` guards the header insert with
`except sqlite3.IntegrityError`.  When the `UNIQUE` constraint on
`invoices.invoice_no` fires, evaluating that except clause raises
`NameError`, which the outer `except Exception` handler converts into a
generic 500 "Database error" response instead of the intended
400 "Invoice number already exists".  The model reproduces this behaviour.
-/

/-- Row of the `clients` table. -/
structure Client where
  id : Nat
  name : String
  address : String
  company_reg_no : String
deriving DecidableEq, Repr

/-- Row of the `products` table (`price REAL` modelled as `ℚ`). -/
structure Product where
  id : Nat
  name : String
  price : ℚ
deriving DecidableEq, Repr

/-- Row of the `invoices` table. -/
structure InvoiceRow where
  id : Nat
  invoice_no : String
  issue_date : String
  due_date : String
  client_id : Nat
  tax_amount : ℚ
  total_amount : ℚ
deriving DecidableEq, Repr

/-- Row of the `invoice_items` table. -/
structure InvoiceItemRow where
  id : Nat
  invoice_id : Nat
  product_id : Nat
  quantity : Int
  unit_price : ℚ
  line_total : ℚ
deriving DecidableEq, Repr

/-- The relational store: the four tables and the two autoincrement
counters (SQLite assigns `next_*` to the next inserted row). -/
structure DB where
  clients : List Client
  products : List Product
  invoices : List InvoiceRow
  invoice_items : List InvoiceItemRow
  next_invoice_id : Nat
  next_item_id : Nat
deriving DecidableEq, Repr

/-- Pydantic model `InvoiceItemCreate` (`quantity : int`, unconstrained). -/
structure InvoiceItemCreate where
  product_id : Nat
  quantity : Int
deriving DecidableEq, Repr

/-- Pydantic model `InvoiceCreate`. -/
structure InvoiceCreate where
  client_id : Nat
  invoice_no : String
  issue_date : String
  due_date : String
  items : List InvoiceItemCreate
deriving DecidableEq, Repr

/-- Pydantic model `InvoiceItemResponse`. -/
structure InvoiceItemResponse where
  id : Nat
  product_name : String
  quantity : Int
  unit_price : ℚ
  line_total : ℚ
deriving DecidableEq, Repr

/-- Pydantic model `InvoiceResponse` (full invoice detail). -/
structure InvoiceResponse where
  id : Nat
  invoice_no : String
  issue_date : String
  due_date : String
  client_name : String
  tax_amount : ℚ
  total_amount : ℚ
  items : List InvoiceItemResponse
deriving DecidableEq, Repr

/-- Pydantic model `InvoiceListResponse`: the list-view summary.  Note the
record has a `client_name` and `total_amount` field but no `items` field and
no `tax_amount` field. -/
structure InvoiceListResponse where
  id : Nat
  invoice_no : String
  issue_date : String
  due_date : String
  client_name : String
  total_amount : ℚ
deriving DecidableEq, Repr

/-- The `detail` payloads of the `HTTPException`s raised by the routes,
as structured data (the Python code uses message strings). -/
inductive ErrorDetail where
  | clientNotFound
  | productNotFound (product_id : Nat)
  | invoiceNotFound
  | databaseError (msg : String)
deriving DecidableEq, Repr

/-- Model of `HTTPException(status_code, detail)`. -/
structure HTTPError where
  status_code : Nat
  detail : ErrorDetail
deriving DecidableEq, Repr

/-- Model of `SELECT id, name, price FROM products WHERE id = ?`. -/
def findProduct (db : DB) (pid : Nat) : Option Product :=
  db.products.find? (fun p => p.id == pid)

/-- Dictionary appended to `processed_items` for each line in
`calculate_invoice_totals`. -/
structure ProcessedItem where
  product_id : Nat
  product_name : String
  unit_price : ℚ
  quantity : Int
  line_total : ℚ
deriving DecidableEq, Repr

/-- The per-line loop of `calculate_invoice_totals`: resolve each product in
input order, raising 404 at the first missing one, otherwise accumulate
`total_amount += product.price * item.quantity` and append the processed
line.  `acc` is the running `total_amount` (initially `0.0`). -/
def priceItems (db : DB) : List InvoiceItemCreate → ℚ →
    Except HTTPError (List ProcessedItem × ℚ)
  | [], acc => .ok ([], acc)
  | item :: rest, acc =>
    match findProduct db item.product_id with
    | none => .error ⟨404, .productNotFound item.product_id⟩
    | some product =>
      match priceItems db rest (acc + product.price * (item.quantity : ℚ)) with
      | .error e => .error e
      | .ok (ps, t) =>
        .ok (⟨product.id, product.name, product.price, item.quantity,
              product.price * (item.quantity : ℚ)⟩ :: ps, t)

/-- Helper `calculate_invoice_totals(items, conn)`: price every line, then
`tax_amount = total_amount * 0.10` and `final_total = total_amount +
tax_amount`.  Returns `(processed_items, tax_amount, final_total)`. -/
def calculate_invoice_totals (items : List InvoiceItemCreate) (db : DB) :
    Except HTTPError (List ProcessedItem × ℚ × ℚ) :=
  match priceItems db items 0 with
  | .error e => .error e
  | .ok (processed, total_amount) =>
    .ok (processed, total_amount * (1 / 10 : ℚ),
         total_amount + total_amount * (1 / 10 : ℚ))

/-- Model of `INSERT INTO invoice_items ...` for each processed line: SQLite assigns
ids `nid, nid + 1, ...` in insertion order. -/
def insertItems (invoice_id : Nat) : Nat → List ProcessedItem → List InvoiceItemRow
  | _, [] => []
  | nid, p :: rest =>
    ⟨nid, invoice_id, p.product_id, p.quantity, p.unit_price, p.line_total⟩ ::
      insertItems invoice_id (nid + 1) rest

/-- Route `POST /invoices` (`create_invoice`): verify the client (404 if absent),
price and validate the items, insert the header then the item rows, and
build the response with `id=0` placeholders on the items.

If another invoice already holds `invoice_no`, the `UNIQUE` constraint makes
the header insert raise `IntegrityError`; the handler
`except sqlite3.IntegrityError` then raises `NameError` because the module
never imports `sqlite3`, and the outer `except Exception` maps that to a
generic 500 "Database error" (the intended 400 branch is unreachable). -/
def create_invoice (req : InvoiceCreate) (db : DB) :
    Except HTTPError (InvoiceResponse × DB) :=
  match db.clients.find? (fun c => c.id == req.client_id) with
  | none => .error ⟨404, .clientNotFound⟩
  | some client =>
    match calculate_invoice_totals req.items db with
    | .error e => .error e
    | .ok (processed, tax_amount, total_amount) =>
      if db.invoices.any (fun i => i.invoice_no == req.invoice_no) then
        .error ⟨500, .databaseError "NameError: name sqlite3 is not defined"⟩
      else
        let invoice_id := db.next_invoice_id
        let invRow : InvoiceRow :=
          ⟨invoice_id, req.invoice_no, req.issue_date, req.due_date,
           req.client_id, tax_amount, total_amount⟩
        let itemRows := insertItems invoice_id db.next_item_id processed
        let response_items := processed.map (fun p =>
          InvoiceItemResponse.mk 0 p.product_name p.quantity p.unit_price
            p.line_total)
        .ok (⟨invoice_id, req.invoice_no, req.issue_date, req.due_date,
              client.name, tax_amount, total_amount, response_items⟩,
             { db with
                invoices := db.invoices ++ [invRow],
                invoice_items := db.invoice_items ++ itemRows,
                next_invoice_id := db.next_invoice_id + 1,
                next_item_id := db.next_item_id + processed.length })

/-- Modelled from the spec: the `get_db` context manager (in
`app/database.py`, which is not among the sources) commits the transaction
on success and rolls it back on any exception, so a failed `create_invoice`
leaves the store unchanged.  `runCreate` is the store after serving the
request: the updated store on success, the original store on error. -/
def runCreate (req : InvoiceCreate) (db : DB) : DB :=
  match create_invoice req db with
  | .ok (_, db₂) => db₂
  | .error _ => db

/-- Stable descending insertion by `id`, modelling `ORDER BY i.id DESC`. -/
def insertByIdDesc (x : InvoiceListResponse) :
    List InvoiceListResponse → List InvoiceListResponse
  | [] => [x]
  | y :: ys => if y.id ≤ x.id then x :: y :: ys else y :: insertByIdDesc x ys

/-- Sort summaries by descending `id` (`ORDER BY i.id DESC`). -/
def sortByIdDesc : List InvoiceListResponse → List InvoiceListResponse
  | [] => []
  | x :: xs => insertByIdDesc x (sortByIdDesc xs)

/-- The row produced for invoice `i` by the list-view join, when its client
resolves. -/
def summaryRow (db : DB) (i : InvoiceRow) : Option InvoiceListResponse :=
  (db.clients.find? (fun c => c.id == i.client_id)).map (fun c =>
    ⟨i.id, i.invoice_no, i.issue_date, i.due_date, c.name, i.total_amount⟩)

/-- Route `GET /invoices` (`list_invoices`): inner join of `invoices` with
`clients`, ordered by descending invoice id; summaries only (the
`InvoiceListResponse` record has no items and no tax field). -/
def list_invoices (db : DB) : List InvoiceListResponse :=
  sortByIdDesc (db.invoices.filterMap (summaryRow db))

/-- The `JOIN products` step of the item query in `get_invoice`: an item row
is rendered only if its product still exists (inner join), taking the
product name from the catalog and everything else from the stored row. -/
def renderItem (db : DB) (row : InvoiceItemRow) : Option InvoiceItemResponse :=
  (findProduct db row.product_id).map (fun p =>
    ⟨row.id, p.name, row.quantity, row.unit_price, row.line_total⟩)

/-- Route `GET /invoices/\x7binvoice_id\x7d` (`get_invoice`): join the header with the
client (the inner join makes a dangling `client_id` indistinguishable from a
missing invoice), 404 if absent; then fetch the items joined with
`products`. -/
def get_invoice (invoice_id : Nat) (db : DB) : Except HTTPError InvoiceResponse :=
  match db.invoices.find? (fun i => i.id == invoice_id) with
  | none => .error ⟨404, .invoiceNotFound⟩
  | some inv =>
    match db.clients.find? (fun c => c.id == inv.client_id) with
    | none => .error ⟨404, .invoiceNotFound⟩
    | some client =>
      let rows := db.invoice_items.filter (fun ii => ii.invoice_id == invoice_id)
      .ok ⟨inv.id, inv.invoice_no, inv.issue_date, inv.due_date, client.name,
           inv.tax_amount, inv.total_amount, rows.filterMap (renderItem db)⟩

/-- Route `DELETE /invoices/\x7binvoice_id\x7d` (`delete_invoice`): check existence
(404 if absent), then delete the item rows and the header row in the same
transaction; 204 on success (modelled as returning the new store). -/
def delete_invoice (invoice_id : Nat) (db : DB) : Except HTTPError DB :=
  if db.invoices.any (fun i => i.id == invoice_id) then
    .ok { db with
            invoice_items :=
              db.invoice_items.filter (fun ii => ¬ ii.invoice_id == invoice_id),
            invoices := db.invoices.filter (fun i => ¬ i.id == invoice_id) }
  else
    .error ⟨404, .invoiceNotFound⟩

/-- Line `it` of a request resolves to processed line `p`: the catalog holds
its product, and `p` carries the snapshot of the id, name and, of that product, the
price together with the requested quantity and the computed line total. -/
def ResolvesTo (db : DB) (it : InvoiceItemCreate) (p : ProcessedItem) : Prop :=
  ∃ prod, findProduct db it.product_id = some prod ∧
    p = ⟨prod.id, prod.name, prod.price, it.quantity,
         prod.price * (it.quantity : ℚ)⟩

/-- Decidable equality on `Except`, for evaluating endpoint results. -/
instance {e a : Type} [DecidableEq e] [DecidableEq a] : DecidableEq (Except e a) := fun x y =>
  match x, y with
  | .ok v, .ok w => if h : v = w then .isTrue (by rw [h]) else .isFalse (by simp [h])
  | .error v, .error w => if h : v = w then .isTrue (by rw [h]) else .isFalse (by simp [h])
  | .ok _, .error _ => .isFalse (by simp)
  | .error _, .ok _ => .isFalse (by simp)

/-- Helper predicate: an `Except` value is a success. -/
def isOkE {ε α : Type} : Except ε α → Bool
  | .ok _ => true
  | .error _ => false

/-! ## Pricing lemmas -/

/-- Soundness of the pricing loop: a successful run resolves every line in
order to its catalog snapshot, and the returned accumulator is the starting
accumulator plus the sum of the line totals. -/
theorem priceItems_sound (db : DB) (items : List InvoiceItemCreate) :
    ∀ (acc t : ℚ) (ps : List ProcessedItem),
      priceItems db items acc = .ok (ps, t) →
      List.Forall₂ (ResolvesTo db) items ps ∧
        t = acc + (ps.map (fun p => p.line_total)).sum := by
  induction items with
  | nil =>
    intro acc t ps h
    simp only [priceItems, Except.ok.injEq, Prod.mk.injEq] at h
    obtain ⟨rfl, rfl⟩ := h
    simp
  | cons item rest ih =>
    intro acc t ps h
    cases hf : findProduct db item.product_id with
    | none => simp [priceItems, hf] at h
    | some prod =>
      cases hr : priceItems db rest (acc + prod.price * (item.quantity : ℚ)) with
      | error e => simp [priceItems, hf, hr] at h
      | ok pr =>
        obtain ⟨ps₁, t₁⟩ := pr
        simp only [priceItems, hf, hr, Except.ok.injEq, Prod.mk.injEq] at h
        obtain ⟨rfl, rfl⟩ := h
        obtain ⟨hf₂, hsum⟩ := ih _ _ _ hr
        refine ⟨List.Forall₂.cons ⟨prod, hf, rfl⟩ hf₂, ?_⟩
        rw [hsum]
        simp only [List.map_cons, List.sum_cons]
        ring

/-- Completeness of the pricing loop: when every requested product is in the
catalog, the loop succeeds. -/
theorem priceItems_ok (db : DB) (items : List InvoiceItemCreate)
    (h : ∀ it ∈ items, (findProduct db it.product_id).isSome) :
    ∀ acc, ∃ ps t, priceItems db items acc = .ok (ps, t) := by
  induction items with
  | nil => intro acc; exact ⟨[], acc, rfl⟩
  | cons item rest ih =>
    intro acc
    obtain ⟨prod, hf⟩ := Option.isSome_iff_exists.mp (h item (by simp))
    obtain ⟨ps, t, hr⟩ := ih (fun it hit => h it (by simp [hit]))
      (acc + prod.price * (item.quantity : ℚ))
    refine ⟨⟨prod.id, prod.name, prod.price, item.quantity,
      prod.price * (item.quantity : ℚ)⟩ :: ps, t, ?_⟩
    simp only [priceItems, hf, hr]

/-- The pricing loop aborts at the first unresolvable line, reporting the
identifier of that product, regardless of the lines after it. -/
theorem priceItems_error_split (db : DB) (pre post : List InvoiceItemCreate)
    (bad : InvoiceItemCreate)
    (hpre : ∀ it ∈ pre, (findProduct db it.product_id).isSome)
    (hbad : findProduct db bad.product_id = none) :
    ∀ acc, priceItems db (pre ++ bad :: post) acc =
      .error ⟨404, .productNotFound bad.product_id⟩ := by
  induction pre with
  | nil => intro acc; simp only [List.nil_append, priceItems, hbad]
  | cons item rest ih =>
    intro acc
    obtain ⟨prod, hf⟩ := Option.isSome_iff_exists.mp (hpre item (by simp))
    have hr := ih (fun it hit => hpre it (by simp [hit]))
      (acc + prod.price * (item.quantity : ℚ))
    simp only [List.cons_append, priceItems, hf, List.append_eq, hr]

/-! ## Concrete states for witnesses (seed rows from migration 002) -/

/-- Concrete store: one seeded client and two seeded products, no invoices. -/
def exDb : DB :=
  { clients := [⟨1, "Acme Corp", "123 Business Rd, Tech City", "REG123456"⟩],
    products := [⟨1, "Widget A", 10⟩, ⟨3, "Gadget X", 50⟩],
    invoices := [],
    invoice_items := [],
    next_invoice_id := 1,
    next_item_id := 1 }

/-- Item list of the worked example: 2 × product 1 (price 10.0) and
1 × product 3 (price 50.0). -/
def exItems : List InvoiceItemCreate := [⟨1, 2⟩, ⟨3, 1⟩]

/-- Create request of the worked example (`verify_invoices.py`). -/
def exReq : InvoiceCreate :=
  ⟨1, "INV-001", "2023-10-27", "2023-11-27", exItems⟩

/-- Second create request reusing the invoice number of `exReq`. -/
def exReqDup : InvoiceCreate :=
  ⟨1, "INV-001", "2023-11-01", "2023-12-01", [⟨1, 1⟩]⟩

/-- Response of the first successful creation of `exReq` against `exDb`:
note the `id := 0` placeholders on the items. -/
def exResp1 : InvoiceResponse :=
  ⟨1, "INV-001", "2023-10-27", "2023-11-27", "Acme Corp", 7, 77,
   [⟨0, "Widget A", 2, 10, 20⟩, ⟨0, "Gadget X", 1, 50, 50⟩]⟩

/-- Store after the first successful creation of `exReq` against `exDb`. -/
def exDb1 : DB :=
  { exDb with
      invoices := [⟨1, "INV-001", "2023-10-27", "2023-11-27", 1, 7, 77⟩],
      invoice_items := [⟨1, 1, 1, 2, 10, 20⟩, ⟨2, 1, 3, 1, 50, 50⟩],
      next_invoice_id := 2,
      next_item_id := 3 }

/-- Specification of a successful `calculate_invoice_totals`: when every
product resolves, the result is the resolved lines in input order, tax of
one tenth of the subtotal, and total of subtotal plus tax. -/
theorem calc_totals_spec (db : DB) (items : List InvoiceItemCreate)
    (h : ∀ it ∈ items, (findProduct db it.product_id).isSome) :
    ∃ ps : List ProcessedItem,
      List.Forall₂ (ResolvesTo db) items ps ∧
      calculate_invoice_totals items db =
        .ok (ps, (ps.map (fun p => p.line_total)).sum * (1 / 10 : ℚ),
             (ps.map (fun p => p.line_total)).sum +
               (ps.map (fun p => p.line_total)).sum * (1 / 10 : ℚ)) := by
  obtain ⟨ps, t, hr⟩ := priceItems_ok db items h 0
  obtain ⟨hfa, hsum⟩ := priceItems_sound db items 0 t ps hr
  refine ⟨ps, hfa, ?_⟩
  rw [zero_add] at hsum
  simp only [calculate_invoice_totals, hr, hsum]

/-- Inversion of a successful `calculate_invoice_totals`. -/
theorem calc_totals_inv (db : DB) (items : List InvoiceItemCreate)
    (ps : List ProcessedItem) (tax tot : ℚ)
    (h : calculate_invoice_totals items db = .ok (ps, tax, tot)) :
    List.Forall₂ (ResolvesTo db) items ps ∧
      tax = (ps.map (fun p => p.line_total)).sum * (1 / 10 : ℚ) ∧
      tot = (ps.map (fun p => p.line_total)).sum +
        (ps.map (fun p => p.line_total)).sum * (1 / 10 : ℚ) := by
  cases hp : priceItems db items 0 with
  | error e => simp [calculate_invoice_totals, hp] at h
  | ok pr =>
    obtain ⟨ps₁, t⟩ := pr
    obtain ⟨hfa, hsum⟩ := priceItems_sound db items 0 t ps₁ hp
    rw [zero_add] at hsum
    simp only [calculate_invoice_totals, hp, Except.ok.injEq, Prod.mk.injEq] at h
    obtain ⟨rfl, rfl, rfl⟩ := h
    exact ⟨hfa, by rw [hsum], by rw [hsum]⟩

/-! ## Claim theorems: pricing and validation -/

/-- C1: for every item list whose products all exist in the catalog, pricing
succeeds; the processed lines are in the input line order with
`line_total = unit_price × quantity` (`ResolvesTo`), the subtotal is the sum
of the line totals, `tax_amount = subtotal * 0.10` and
`total_amount = subtotal + tax_amount`. -/
theorem C1_pricing_totals (db : DB) (items : List InvoiceItemCreate)
    (h : ∀ it ∈ items, (findProduct db it.product_id).isSome) :
    ∃ ps : List ProcessedItem,
      List.Forall₂ (ResolvesTo db) items ps ∧
      calculate_invoice_totals items db =
        .ok (ps, (ps.map (fun p => p.line_total)).sum * (1 / 10 : ℚ),
             (ps.map (fun p => p.line_total)).sum +
               (ps.map (fun p => p.line_total)).sum * (1 / 10 : ℚ)) :=
  calc_totals_spec db items h

/-- Witness for C1 at the worked example: products priced 10.0 and 50.0 with
quantities 2 and 1 give subtotal 70, tax 7, total 77. -/
theorem C1_pricing_totals_witness :
    calculate_invoice_totals exItems exDb =
      .ok ([⟨1, "Widget A", 10, 2, 20⟩, ⟨3, "Gadget X", 50, 1, 50⟩], 7, 77) ∧
    (∃ ps : List ProcessedItem,
      List.Forall₂ (ResolvesTo exDb) exItems ps ∧
      calculate_invoice_totals exItems exDb =
        .ok (ps, (ps.map (fun p => p.line_total)).sum * (1 / 10 : ℚ),
             (ps.map (fun p => p.line_total)).sum +
               (ps.map (fun p => p.line_total)).sum * (1 / 10 : ℚ))) :=
  ⟨by simp [calculate_invoice_totals, priceItems, findProduct, exItems, exDb,
      List.find?]; norm_num,
   C1_pricing_totals exDb exItems (by decide)⟩

/-- C2 (documenting a code bug): creating an invoice and then creating a
second one with the same `invoice_no` does not produce the intended distinct
400 "Invoice number already exists" error: because `app/routes/invoices.py`
never imports `sqlite3`, the `except sqlite3.IntegrityError` clause raises
`NameError` and the outer handler returns a generic 500 "Database error".
The store is still left unchanged from its state after the first success
(rollback by the `get_db` context manager). -/
theorem C2_duplicate_generic_500 :
    create_invoice exReq exDb = .ok (exResp1, exDb1) ∧
    create_invoice exReqDup exDb1 =
      .error ⟨500, .databaseError "NameError: name sqlite3 is not defined"⟩ ∧
    runCreate exReqDup exDb1 = exDb1 := by
  have h1 : create_invoice exReq exDb = .ok (exResp1, exDb1) := by
    simp [create_invoice, calculate_invoice_totals, priceItems, findProduct,
      insertItems, exReq, exItems, exDb, exResp1, exDb1]
    norm_num
  have h2 : create_invoice exReqDup exDb1 =
      .error ⟨500, .databaseError "NameError: name sqlite3 is not defined"⟩ := by
    simp [create_invoice, calculate_invoice_totals, priceItems, findProduct,
      exReqDup, exDb1, exDb]
  exact ⟨h1, h2, by simp only [runCreate, h2]⟩

/-- C3: when the client resolves but some requested line references a
product absent from the catalog, `create_invoice` aborts with a 404
identifying the product id of the first such line in input order, and the
store is unchanged (no invoice or item row persisted, since pricing runs
before any insert). -/
theorem C3_product_abort (db : DB) (req : InvoiceCreate) (client : Client)
    (pre post : List InvoiceItemCreate) (bad : InvoiceItemCreate)
    (hc : db.clients.find? (fun c => c.id == req.client_id) = some client)
    (hsplit : req.items = pre ++ bad :: post)
    (hpre : ∀ it ∈ pre, (findProduct db it.product_id).isSome)
    (hbad : findProduct db bad.product_id = none) :
    create_invoice req db = .error ⟨404, .productNotFound bad.product_id⟩ ∧
      runCreate req db = db := by
  have hp := priceItems_error_split db pre post bad hpre hbad 0
  have hcalc : calculate_invoice_totals req.items db =
      .error ⟨404, .productNotFound bad.product_id⟩ := by
    rw [hsplit]
    simp only [calculate_invoice_totals, hp]
  have hcr : create_invoice req db =
      .error ⟨404, .productNotFound bad.product_id⟩ := by
    simp only [create_invoice, hc, hcalc]
  exact ⟨hcr, by simp only [runCreate, hcr]⟩

/-- Request whose middle line references product 99, which is not in the
catalog of `exDb`. -/
def exReqBadProduct : InvoiceCreate :=
  ⟨1, "INV-002", "2023-10-27", "2023-11-27", [⟨1, 2⟩, ⟨99, 1⟩, ⟨3, 1⟩]⟩

/-- Witness for C3: the request fails with 404 naming product 99 (the first
unresolvable line) and the store is unchanged. -/
theorem C3_product_abort_witness :
    create_invoice exReqBadProduct exDb = .error ⟨404, .productNotFound 99⟩ ∧
      runCreate exReqBadProduct exDb = exDb := by
  exact C3_product_abort exDb exReqBadProduct
    ⟨1, "Acme Corp", "123 Business Rd, Tech City", "REG123456"⟩
    [⟨1, 2⟩] [⟨3, 1⟩] ⟨99, 1⟩ (by decide) (by decide) (by decide) (by decide)

/-- C5: a create request whose `client_id` has no row in `clients` fails
with the 404 client error and leaves the store unchanged; the statement
places no condition on the requested products, so the client check decides
the outcome before any product lookup and before any write. -/
theorem C5_client_first (db : DB) (req : InvoiceCreate)
    (h : db.clients.find? (fun c => c.id == req.client_id) = none) :
    create_invoice req db = .error ⟨404, .clientNotFound⟩ ∧
      runCreate req db = db := by
  have hcr : create_invoice req db = .error ⟨404, .clientNotFound⟩ := by
    simp only [create_invoice, h]
  exact ⟨hcr, by simp only [runCreate, hcr]⟩

/-- Request with an unknown client and an unknown product: the client error
wins. -/
def exReqBadClient : InvoiceCreate :=
  ⟨42, "INV-003", "2023-10-27", "2023-11-27", [⟨99, 1⟩]⟩

/-- Witness for C5: unknown client 42 yields the client 404 even though the
single requested product 99 is unknown too. -/
theorem C5_client_first_witness :
    create_invoice exReqBadClient exDb = .error ⟨404, .clientNotFound⟩ ∧
      runCreate exReqBadClient exDb = exDb :=
  C5_client_first exDb exReqBadClient (by decide)

/-! ## Claim C4: empty item lists -/

/-- Create request with an empty items list. -/
def exReqEmpty : InvoiceCreate :=
  ⟨1, "INV-000", "2023-10-27", "2023-11-27", []⟩

/-- Counterexample to C4 as stated: `create_invoice` does not reject the
empty items list; against `exDb` the request `exReqEmpty` succeeds. -/
theorem C4_counterexample : isOkE (create_invoice exReqEmpty exDb) = true := by
  simp [create_invoice, calculate_invoice_totals, priceItems, findProduct,
    isOkE, exReqEmpty, exDb]

/-- C4 amended: a create request with an empty items list is accepted
whenever its client exists and its invoice number is unused; the persisted
invoice has no item rows and zero tax and total. -/
theorem C4_empty_items_accepted (db : DB) (req : InvoiceCreate)
    (client : Client)
    (hempty : req.items = [])
    (hc : db.clients.find? (fun c => c.id == req.client_id) = some client)
    (hdup : db.invoices.any (fun i => i.invoice_no == req.invoice_no) = false) :
    create_invoice req db =
      .ok (⟨db.next_invoice_id, req.invoice_no, req.issue_date, req.due_date,
            client.name, 0, 0, []⟩,
           { db with
               invoices := db.invoices ++
                 [⟨db.next_invoice_id, req.invoice_no, req.issue_date,
                   req.due_date, req.client_id, 0, 0⟩],
               invoice_items := db.invoice_items,
               next_invoice_id := db.next_invoice_id + 1,
               next_item_id := db.next_item_id }) := by
  have hcalc : calculate_invoice_totals req.items db = .ok ([], 0, 0) := by
    rw [hempty]
    simp [calculate_invoice_totals, priceItems]
  simp [create_invoice, hc, hcalc, hdup, insertItems]

/-- Witness for the amended C4 at `exReqEmpty` against `exDb`. -/
theorem C4_empty_items_accepted_witness :
    create_invoice exReqEmpty exDb =
      .ok (⟨exDb.next_invoice_id, exReqEmpty.invoice_no, exReqEmpty.issue_date,
            exReqEmpty.due_date,
            (Client.mk 1 "Acme Corp" "123 Business Rd, Tech City"
              "REG123456").name, 0, 0, []⟩,
           { exDb with
               invoices := exDb.invoices ++
                 [⟨exDb.next_invoice_id, exReqEmpty.invoice_no,
                   exReqEmpty.issue_date, exReqEmpty.due_date,
                   exReqEmpty.client_id, 0, 0⟩],
               invoice_items := exDb.invoice_items,
               next_invoice_id := exDb.next_invoice_id + 1,
               next_item_id := exDb.next_item_id }) := by
  exact C4_empty_items_accepted exDb exReqEmpty
    ⟨1, "Acme Corp", "123 Business Rd, Tech City", "REG123456"⟩
    (by decide) (by decide) (by decide)

/-! ## Claim C6: delete semantics -/

/-- C6: deleting a nonexistent invoice id returns the 404 error and never
silent success; deleting an existing one removes exactly its item rows and
its header row in one step; and after any successful delete, `get` on that
id yields the 404 error. -/
theorem C6_delete_semantics (iid : Nat) (db : DB) :
    (db.invoices.find? (fun i => i.id == iid) = none →
      delete_invoice iid db = .error ⟨404, .invoiceNotFound⟩) ∧
    ((∃ inv ∈ db.invoices, inv.id = iid) →
      delete_invoice iid db = .ok
        { db with
            invoice_items :=
              db.invoice_items.filter (fun ii => ¬ ii.invoice_id == iid),
            invoices := db.invoices.filter (fun i => ¬ i.id == iid) }) ∧
    (∀ db₂, delete_invoice iid db = .ok db₂ →
      get_invoice iid db₂ = .error ⟨404, .invoiceNotFound⟩) := by
  refine ⟨?_, ?_, ?_⟩
  · intro hnone
    have hany : db.invoices.any (fun i => i.id == iid) = false := by
      rw [Bool.eq_false_iff]
      intro hany
      obtain ⟨inv, hmem, hbeq⟩ := List.any_eq_true.mp hany
      exact (List.find?_eq_none.mp hnone inv hmem) hbeq
    simp [delete_invoice, hany]
  · intro hex
    obtain ⟨inv, hmem, hid⟩ := hex
    have hany : db.invoices.any (fun i => i.id == iid) = true :=
      List.any_eq_true.mpr ⟨inv, hmem, by simp [hid]⟩
    simp [delete_invoice, hany]
  · intro db₂ hok
    have hany : db.invoices.any (fun i => i.id == iid) = true := by
      by_contra hne
      simp [delete_invoice, Bool.eq_false_iff.mpr hne] at hok
    have hdb₂ : db₂ = { db with
        invoice_items :=
          db.invoice_items.filter (fun ii => ¬ ii.invoice_id == iid),
        invoices := db.invoices.filter (fun i => ¬ i.id == iid) } := by
      rw [delete_invoice, if_pos hany] at hok
      exact (Except.ok.injEq _ _).mp hok.symm
    have hfind : (db.invoices.filter (fun i => ¬ i.id == iid)).find?
        (fun i => i.id == iid) = none := by
      rw [List.find?_eq_none]
      intro inv hmem
      have := (List.mem_filter.mp hmem).2
      simpa using this
    rw [hdb₂]
    simp only [get_invoice, hfind]

/-- Store after deleting invoice 1 from `exDb1`: both tables emptied, the
catalog and counters untouched. -/
def exDbDel : DB := { exDb1 with invoices := [], invoice_items := [] }

/-- Witness for C6: against `exDb1` (one invoice, id 1), deleting the absent
id 99 yields the 404 error, and deleting id 1 then getting id 1 yields the
404 error. -/
theorem C6_delete_semantics_witness :
    delete_invoice 99 exDb1 = .error ⟨404, .invoiceNotFound⟩ ∧
    get_invoice 1 exDbDel = .error ⟨404, .invoiceNotFound⟩ := by
  have hdel : delete_invoice 1 exDb1 = .ok exDbDel := by
    simp [delete_invoice, exDb1, exDb, exDbDel]
  exact ⟨(C6_delete_semantics 99 exDb1).1 (by decide),
         (C6_delete_semantics 1 exDb1).2.2 exDbDel hdel⟩

/-! ## Claim C7: list view -/

/-- Descending insertion produces a permutation of consing. -/
theorem insertByIdDesc_perm (x : InvoiceListResponse)
    (l : List InvoiceListResponse) : (insertByIdDesc x l).Perm (x :: l) := by
  induction l with
  | nil => simp [insertByIdDesc]
  | cons y ys ih =>
    by_cases h : y.id ≤ x.id
    · simp [insertByIdDesc, h]
    · rw [insertByIdDesc, if_neg h]
      exact (ih.cons y).trans (List.Perm.swap x y ys)

/-- The descending sort permutes its input. -/
theorem sortByIdDesc_perm (l : List InvoiceListResponse) :
    (sortByIdDesc l).Perm l := by
  induction l with
  | nil => simp [sortByIdDesc]
  | cons x xs ih =>
    exact (insertByIdDesc_perm x (sortByIdDesc xs)).trans (ih.cons x)

/-- Descending insertion preserves the sorted-descending invariant. -/
theorem pairwise_insertByIdDesc (x : InvoiceListResponse)
    (l : List InvoiceListResponse)
    (h : List.Pairwise (fun a b => b.id ≤ a.id) l) :
    List.Pairwise (fun a b => b.id ≤ a.id) (insertByIdDesc x l) := by
  induction l with
  | nil => simp [insertByIdDesc]
  | cons y ys ih =>
    obtain ⟨hy, hys⟩ := List.pairwise_cons.mp h
    by_cases hle : y.id ≤ x.id
    · rw [insertByIdDesc, if_pos hle]
      refine List.Pairwise.cons ?_ h
      intro z hz
      rcases List.mem_cons.mp hz with hz | hz
      · rw [hz]; exact hle
      · exact le_trans (hy z hz) hle
    · rw [insertByIdDesc, if_neg hle]
      refine List.Pairwise.cons ?_ (ih hys)
      intro z hz
      have hz₂ : z = x ∨ z ∈ ys := by
        simpa using (insertByIdDesc_perm x ys).mem_iff.mp hz
      rcases hz₂ with hz₂ | hz₂
      · rw [hz₂]; omega
      · exact hy z hz₂

/-- The descending sort is sorted by weakly decreasing id. -/
theorem pairwise_sortByIdDesc (l : List InvoiceListResponse) :
    List.Pairwise (fun a b => b.id ≤ a.id) (sortByIdDesc l) := by
  induction l with
  | nil => simp [sortByIdDesc]
  | cons x xs ih => exact pairwise_insertByIdDesc x _ ih

/-- A produced summary carries the id of its invoice row. -/
theorem summaryRow_id (db : DB) (i : InvoiceRow) (s : InvoiceListResponse)
    (h : summaryRow db i = some s) : s.id = i.id := by
  cases hf : db.clients.find? (fun c => c.id == i.client_id) with
  | none => rw [summaryRow, hf] at h; simp at h
  | some c =>
    rw [summaryRow, hf, Option.map_some'] at h
    rw [← Option.some.inj h]

/-- When every invoice of the list resolves its client, the join drops no
row: the joined summaries carry exactly the invoice ids, in order. -/
theorem filterMap_summaryRow_map_id (db : DB) (l : List InvoiceRow)
    (h : ∀ i ∈ l, (summaryRow db i).isSome) :
    (l.filterMap (summaryRow db)).map (fun s => s.id) =
      l.map (fun i => i.id) := by
  induction l with
  | nil => simp
  | cons i is ih =>
    obtain ⟨s, hs⟩ := Option.isSome_iff_exists.mp (h i (by simp))
    rw [List.filterMap_cons, hs]
    simp only [List.map_cons]
    rw [summaryRow_id db i s hs, ih (fun j hj => h j (by simp [hj]))]

/-- C7: when every persisted invoice resolves its client (always true for
states produced by the API, which validates `client_id` on creation and
never deletes clients) and invoice ids are unique (guaranteed by
autoincrement), `list_invoices` returns exactly one summary per invoice,
strictly ordered by descending invoice id; each summary is the
`summaryRow` of its invoice, an `InvoiceListResponse` carrying the client
name and total amount and structurally lacking both an items field and a
tax field. -/
theorem C7_list_summaries (db : DB)
    (hclients : ∀ i ∈ db.invoices, (summaryRow db i).isSome)
    (hids : (db.invoices.map (fun i => i.id)).Nodup) :
    (list_invoices db).length = db.invoices.length ∧
    List.Pairwise (fun a b : InvoiceListResponse => b.id < a.id)
      (list_invoices db) ∧
    (∀ s ∈ list_invoices db, ∃ i ∈ db.invoices, summaryRow db i = some s) ∧
    (∀ i ∈ db.invoices, ∃ s ∈ list_invoices db, summaryRow db i = some s) := by
  have hperm := sortByIdDesc_perm (db.invoices.filterMap (summaryRow db))
  refine ⟨?_, ?_, ?_, ?_⟩
  · rw [list_invoices, hperm.length_eq]
    simpa using congrArg List.length (filterMap_summaryRow_map_id db db.invoices hclients)
  · have hge := pairwise_sortByIdDesc (db.invoices.filterMap (summaryRow db))
    have hmapperm :
        ((sortByIdDesc (db.invoices.filterMap (summaryRow db))).map
            (fun s => s.id)).Perm
          ((db.invoices.filterMap (summaryRow db)).map (fun s => s.id)) :=
      hperm.map _
    rw [filterMap_summaryRow_map_id db db.invoices hclients] at hmapperm
    have hnodup : ((sortByIdDesc (db.invoices.filterMap (summaryRow db))).map
        (fun s => s.id)).Nodup := hmapperm.nodup_iff.mpr hids
    have hne : List.Pairwise
        (fun a b : InvoiceListResponse => a.id ≠ b.id)
        (sortByIdDesc (db.invoices.filterMap (summaryRow db))) :=
      List.pairwise_map.mp hnodup
    rw [list_invoices]
    exact (hge.and hne).imp (fun h => lt_of_le_of_ne h.1 (Ne.symm h.2))
  · intro s hs
    rw [list_invoices] at hs
    have := hperm.mem_iff.mp hs
    obtain ⟨i, hi, hrow⟩ := List.mem_filterMap.mp this
    exact ⟨i, hi, hrow⟩
  · intro i hi
    obtain ⟨s, hs⟩ := Option.isSome_iff_exists.mp (hclients i hi)
    refine ⟨s, ?_, hs⟩
    rw [list_invoices]
    exact hperm.mem_iff.mpr (List.mem_filterMap.mpr ⟨i, hi, hs⟩)

/-- Concrete store with two persisted invoices, ids 1 and 2, for the list
witness. -/
def exDb7 : DB :=
  { clients := [⟨1, "Acme Corp", "123 Business Rd, Tech City", "REG123456"⟩],
    products := [⟨1, "Widget A", 10⟩],
    invoices := [⟨1, "INV-001", "2023-10-27", "2023-11-27", 1, 7, 77⟩,
                 ⟨2, "INV-002", "2023-10-28", "2023-11-28", 1, 1, 11⟩],
    invoice_items := [],
    next_invoice_id := 3,
    next_item_id := 1 }

/-- Witness for C7 against `exDb7` (two invoices). -/
theorem C7_list_summaries_witness :
    (list_invoices exDb7).length = exDb7.invoices.length ∧
    List.Pairwise (fun a b : InvoiceListResponse => b.id < a.id)
      (list_invoices exDb7) ∧
    (∀ s ∈ list_invoices exDb7,
      ∃ i ∈ exDb7.invoices, summaryRow exDb7 i = some s) ∧
    (∀ i ∈ exDb7.invoices,
      ∃ s ∈ list_invoices exDb7, summaryRow exDb7 i = some s) :=
  C7_list_summaries exDb7 (by decide) (by decide)

/-! ## Success-path characterisation of `create_invoice` -/

/-- Forward characterisation: with a resolved client, successful pricing and
a fresh invoice number, `create_invoice` persists the header and item rows
and answers with the computed detail whose items carry id 0. -/
theorem create_invoice_ok_spec (db : DB) (req : InvoiceCreate)
    (client : Client) (ps : List ProcessedItem) (tax tot : ℚ)
    (hc : db.clients.find? (fun c => c.id == req.client_id) = some client)
    (hcalc : calculate_invoice_totals req.items db = .ok (ps, tax, tot))
    (hdup : db.invoices.any (fun i => i.invoice_no == req.invoice_no) = false) :
    create_invoice req db = .ok
      (⟨db.next_invoice_id, req.invoice_no, req.issue_date, req.due_date,
        client.name, tax, tot,
        ps.map (fun p =>
          InvoiceItemResponse.mk 0 p.product_name p.quantity p.unit_price
            p.line_total)⟩,
       { db with
           invoices := db.invoices ++
             [⟨db.next_invoice_id, req.invoice_no, req.issue_date,
               req.due_date, req.client_id, tax, tot⟩],
           invoice_items := db.invoice_items ++
             insertItems db.next_invoice_id db.next_item_id ps,
           next_invoice_id := db.next_invoice_id + 1,
           next_item_id := db.next_item_id + ps.length }) := by
  simp [create_invoice, hc, hcalc, hdup]

/-- Inversion of a successful `create_invoice`. -/
theorem create_invoice_ok_inv (db : DB) (req : InvoiceCreate)
    (resp : InvoiceResponse) (db₂ : DB)
    (hok : create_invoice req db = .ok (resp, db₂)) :
    ∃ client ps tax tot,
      db.clients.find? (fun c => c.id == req.client_id) = some client ∧
      calculate_invoice_totals req.items db = .ok (ps, tax, tot) ∧
      db.invoices.any (fun i => i.invoice_no == req.invoice_no) = false ∧
      resp = ⟨db.next_invoice_id, req.invoice_no, req.issue_date,
        req.due_date, client.name, tax, tot,
        ps.map (fun p =>
          InvoiceItemResponse.mk 0 p.product_name p.quantity p.unit_price
            p.line_total)⟩ ∧
      db₂ = { db with
        invoices := db.invoices ++
          [⟨db.next_invoice_id, req.invoice_no, req.issue_date,
            req.due_date, req.client_id, tax, tot⟩],
        invoice_items := db.invoice_items ++
          insertItems db.next_invoice_id db.next_item_id ps,
        next_invoice_id := db.next_invoice_id + 1,
        next_item_id := db.next_item_id + ps.length } := by
  cases hc : db.clients.find? (fun c => c.id == req.client_id) with
  | none => simp [create_invoice, hc] at hok
  | some client =>
    cases hcalc : calculate_invoice_totals req.items db with
    | error e => simp [create_invoice, hc, hcalc] at hok
    | ok trip =>
      obtain ⟨ps, tax, tot⟩ := trip
      by_cases hdup :
          db.invoices.any (fun i => i.invoice_no == req.invoice_no) = true
      · simp [create_invoice, hc, hcalc, hdup] at hok
      · have hdupf :
            db.invoices.any (fun i => i.invoice_no == req.invoice_no)
              = false := by
          simpa using hdup
        have hspec := create_invoice_ok_spec db req client ps tax tot
          hc hcalc hdupf
        rw [hspec, Except.ok.injEq, Prod.mk.injEq] at hok
        exact ⟨client, ps, tax, tot, rfl, rfl, hdupf,
          hok.1.symm, hok.2.symm⟩

/-! ## Claim C8: quantities are not validated -/

/-- Resolved lines carry exactly the requested quantities. -/
theorem forall₂_map_quantity (db : DB) (items : List InvoiceItemCreate)
    (ps : List ProcessedItem) (h : List.Forall₂ (ResolvesTo db) items ps) :
    ps.map (fun p => p.quantity) = items.map (fun it => it.quantity) := by
  induction h with
  | nil => simp
  | cons h₁ h₂ ih =>
    obtain ⟨prod, hf, rfl⟩ := h₁
    simp [ih]

/-- Inserted item rows carry exactly the processed quantities. -/
theorem insertItems_map_quantity (iid : Nat) (ps : List ProcessedItem) :
    ∀ nid, (insertItems iid nid ps).map (fun r => r.quantity) =
      ps.map (fun p => p.quantity) := by
  induction ps with
  | nil => intro nid; simp [insertItems]
  | cons p rest ih => intro nid; simp [insertItems, ih]

/-- Create request whose single line has quantity 0. -/
def exReqQty0 : InvoiceCreate :=
  ⟨1, "INV-004", "2023-10-27", "2023-11-27", [⟨1, 0⟩]⟩

/-- Counterexample to C8 as stated: a request with a zero-quantity line is
accepted, and the zero quantity is persisted in `invoice_items` (with line
total 0); nothing in the route or the schema rejects it. -/
theorem C8_counterexample :
    create_invoice exReqQty0 exDb = .ok
      (⟨1, "INV-004", "2023-10-27", "2023-11-27", "Acme Corp", 0, 0,
        [⟨0, "Widget A", 0, 10, 0⟩]⟩,
       { exDb with
           invoices := [⟨1, "INV-004", "2023-10-27", "2023-11-27", 1, 0, 0⟩],
           invoice_items := [⟨1, 1, 1, 0, 10, 0⟩],
           next_invoice_id := 2,
           next_item_id := 2 }) := by
  simp [create_invoice, calculate_invoice_totals, priceItems, findProduct,
    insertItems, exReqQty0, exDb]

/-- C8 amended: `create_invoice` performs no quantity validation: whenever
the client resolves, all products resolve and the invoice number is fresh,
the request is accepted and the persisted item rows carry exactly the
requested quantities, whatever integers they are (zero and negative
included). -/
theorem C8_quantity_unvalidated (db : DB) (req : InvoiceCreate)
    (client : Client)
    (hc : db.clients.find? (fun c => c.id == req.client_id) = some client)
    (hall : ∀ it ∈ req.items, (findProduct db it.product_id).isSome)
    (hdup : db.invoices.any (fun i => i.invoice_no == req.invoice_no) = false) :
    ∃ resp db₂, create_invoice req db = .ok (resp, db₂) ∧
      (db₂.invoice_items.drop db.invoice_items.length).map
        (fun r => r.quantity) = req.items.map (fun it => it.quantity) := by
  obtain ⟨ps, hfa, hcalc⟩ := calc_totals_spec db req.items hall
  refine ⟨_, _, create_invoice_ok_spec db req client ps _ _ hc hcalc hdup, ?_⟩
  simp only [List.drop_left]
  rw [insertItems_map_quantity, forall₂_map_quantity db req.items ps hfa]

/-- Create request whose single line has quantity -3. -/
def exReqQtyNeg : InvoiceCreate :=
  ⟨1, "INV-005", "2023-10-27", "2023-11-27", [⟨1, -3⟩]⟩

/-- Witness for the amended C8: the quantity -3 is accepted and persisted
verbatim. -/
theorem C8_quantity_unvalidated_witness :
    ∃ resp db₂, create_invoice exReqQtyNeg exDb = .ok (resp, db₂) ∧
      (db₂.invoice_items.drop exDb.invoice_items.length).map
        (fun r => r.quantity) =
          exReqQtyNeg.items.map (fun it => it.quantity) :=
  C8_quantity_unvalidated exDb exReqQtyNeg
    ⟨1, "Acme Corp", "123 Business Rd, Tech City", "REG123456"⟩
    (by decide) (by decide) (by decide)

/-! ## Claim C9: price snapshot versus live product reference -/

/-- A catalog-wide price update: every product keeps its id and name and
takes price `f id`.  Ids and names are untouched, so this covers every
"price update" change to the `products` table. -/
def updatePrices (f : Nat → ℚ) (db : DB) : DB :=
  { db with products := db.products.map (fun p => { p with price := f p.id }) }

/-- Counterexample to C9 as stated: deleting a referenced product row
changes what `get_invoice` returns, because the item query inner-joins
`invoice_items` with `products`; against `exDb1` (invoice 1 with two
items), emptying the catalog makes `get` return the invoice with zero
items. -/
theorem C9_counterexample :
    get_invoice 1 { exDb1 with products := [] } ≠ get_invoice 1 exDb1 := by
  have h1 : get_invoice 1 exDb1 = .ok
      ⟨1, "INV-001", "2023-10-27", "2023-11-27", "Acme Corp", 7, 77,
       [⟨1, "Widget A", 2, 10, 20⟩, ⟨2, "Gadget X", 1, 50, 50⟩]⟩ := by
    simp [get_invoice, renderItem, findProduct, exDb1, exDb]
  have h2 : get_invoice 1 { exDb1 with products := [] } = .ok
      ⟨1, "INV-001", "2023-10-27", "2023-11-27", "Acme Corp", 7, 77, []⟩ := by
    simp [get_invoice, renderItem, findProduct, exDb1, exDb]
  rw [h1, h2]
  intro h
  simp at h

/-- Price updates do not change what the product join finds, apart from the
price field itself (which `get_invoice` never reads). -/
theorem findProduct_updatePrices (f : Nat → ℚ) (db : DB) (pid : Nat) :
    findProduct (updatePrices f db) pid =
      (findProduct db pid).map (fun p => { p with price := f p.id }) := by
  unfold findProduct updatePrices
  rw [List.find?_map]
  rfl

/-- Rendering an item row is invariant under catalog price updates: only
the product name is read from the catalog. -/
theorem renderItem_updatePrices (f : Nat → ℚ) (db : DB)
    (row : InvoiceItemRow) :
    renderItem (updatePrices f db) row = renderItem db row := by
  unfold renderItem
  rw [findProduct_updatePrices]
  cases findProduct db row.product_id <;> rfl

/-- C9 amended: `get_invoice` is invariant under catalog price updates
(`unit_price` and `line_total` are read from the stored snapshot, and the
header tax and total are the stored creation-time values); every returned
item carries the fields of a stored `invoice_items` row of that invoice.
The original claim fails for product row deletion (`C9_counterexample`):
the inner join with `products` drops items whose product row is gone. -/
theorem C9_price_snapshot (f : Nat → ℚ) (iid : Nat) (db : DB) :
    get_invoice iid (updatePrices f db) = get_invoice iid db ∧
    (∀ detail, get_invoice iid db = .ok detail →
      (∃ inv ∈ db.invoices, inv.id = iid ∧
        detail.tax_amount = inv.tax_amount ∧
        detail.total_amount = inv.total_amount) ∧
      (∀ it ∈ detail.items, ∃ row ∈ db.invoice_items,
        row.invoice_id = iid ∧ it.id = row.id ∧ it.quantity = row.quantity ∧
        it.unit_price = row.unit_price ∧ it.line_total = row.line_total)) := by
  constructor
  · have hri : ∀ rows : List InvoiceItemRow,
        rows.filterMap (renderItem (updatePrices f db)) =
          rows.filterMap (renderItem db) := by
      intro rows
      induction rows with
      | nil => rfl
      | cons r rs ih => simp [List.filterMap_cons, renderItem_updatePrices, ih]
    have h₁ : (updatePrices f db).invoices = db.invoices := rfl
    have h₂ : (updatePrices f db).clients = db.clients := rfl
    have h₃ : (updatePrices f db).invoice_items = db.invoice_items := rfl
    simp only [get_invoice, h₁, h₂, h₃, hri]
  · intro detail hok
    cases hi : db.invoices.find? (fun i => i.id == iid) with
    | none => simp [get_invoice, hi] at hok
    | some inv =>
      cases hc : db.clients.find? (fun c => c.id == inv.client_id) with
      | none => simp [get_invoice, hi, hc] at hok
      | some client =>
        simp only [get_invoice, hi, hc, Except.ok.injEq] at hok
        subst hok
        constructor
        · have hinvmem : inv ∈ db.invoices := List.mem_of_find?_eq_some hi
          have hid : inv.id = iid := by simpa using List.find?_some hi
          exact ⟨inv, hinvmem, hid, rfl, rfl⟩
        · intro it hit
          obtain ⟨row, hrowmem, hrend⟩ := List.mem_filterMap.mp hit
          have hrow₂ := List.mem_filter.mp hrowmem
          have hinvid : row.invoice_id = iid := by simpa using hrow₂.2
          cases hf : findProduct db row.product_id with
          | none => rw [renderItem, hf] at hrend; simp at hrend
          | some p =>
            rw [renderItem, hf, Option.map_some'] at hrend
            obtain rfl := Option.some.inj hrend
            exact ⟨row, hrow₂.1, hinvid, rfl, rfl, rfl, rfl⟩

/-- Witness for the amended C9: a concrete price update (every price set to
99) against `exDb1`, invoice 1. -/
theorem C9_price_snapshot_witness :
    get_invoice 1 (updatePrices (fun _ => 99) exDb1) = get_invoice 1 exDb1 ∧
    (∀ detail, get_invoice 1 exDb1 = .ok detail →
      (∃ inv ∈ exDb1.invoices, inv.id = 1 ∧
        detail.tax_amount = inv.tax_amount ∧
        detail.total_amount = inv.total_amount) ∧
      (∀ it ∈ detail.items, ∃ row ∈ exDb1.invoice_items,
        row.invoice_id = 1 ∧ it.id = row.id ∧ it.quantity = row.quantity ∧
        it.unit_price = row.unit_price ∧ it.line_total = row.line_total)) :=
  C9_price_snapshot (fun _ => 99) 1 exDb1

/-! ## Claim C10: placeholder item ids on the create path -/

/-- Membership on the right of a `Forall₂`. -/
theorem forall₂_mem_right {α β : Type} {R : α → β → Prop}
    {l₁ : List α} {l₂ : List β} (h : List.Forall₂ R l₁ l₂) :
    ∀ b ∈ l₂, ∃ a ∈ l₁, R a b := by
  induction h with
  | nil => simp
  | cons h₁ h₂ ih =>
    intro b hb
    rcases List.mem_cons.mp hb with rfl | hb
    · exact ⟨_, by simp, h₁⟩
    · obtain ⟨a, ha, hr⟩ := ih b hb
      exact ⟨a, by simp [ha], hr⟩

/-- A resolved line can be looked up again by its own snapshot product id,
returning the product whose name it carries. -/
theorem resolvesTo_self_lookup (db : DB) (it : InvoiceItemCreate)
    (p : ProcessedItem) (h : ResolvesTo db it p) :
    ∃ prod, findProduct db p.product_id = some prod ∧
      prod.name = p.product_name := by
  obtain ⟨prod, hf, rfl⟩ := h
  have hid : prod.id = it.product_id := by simpa using List.find?_some hf
  refine ⟨prod, ?_, rfl⟩
  show findProduct db prod.id = some prod
  rw [hid]
  exact hf

/-- Every row inserted for an invoice carries that invoice id. -/
theorem insertItems_invoice_id (iid : Nat) (ps : List ProcessedItem) :
    ∀ nid row, row ∈ insertItems iid nid ps → row.invoice_id = iid := by
  induction ps with
  | nil => intro nid row h; simp [insertItems] at h
  | cons p rest ih =>
    intro nid row h
    rcases List.mem_cons.mp h with rfl | h
    · rfl
    · exact ih (nid + 1) row h

/-- Rendering the freshly inserted rows (all of whose products exist in the
catalog) drops nothing and yields exactly the storage-assigned consecutive
ids `nid, nid + 1, ...`. -/
theorem filterMap_renderItem_insertItems (db : DB) (iid : Nat)
    (ps : List ProcessedItem)
    (h : ∀ p ∈ ps, ∃ prod, findProduct db p.product_id = some prod ∧
      prod.name = p.product_name) :
    ∀ nid, ((insertItems iid nid ps).filterMap (renderItem db)).map
      (fun it => it.id) = List.range' nid ps.length := by
  induction ps with
  | nil => intro nid; simp [insertItems]
  | cons p rest ih =>
    intro nid
    obtain ⟨prod, hf, hname⟩ := h p (by simp)
    have hrend : renderItem db
        ⟨nid, iid, p.product_id, p.quantity, p.unit_price, p.line_total⟩ =
        some ⟨nid, prod.name, p.quantity, p.unit_price, p.line_total⟩ := by
      rw [renderItem]
      show (findProduct db p.product_id).map _ = _
      rw [hf, Option.map_some']
    rw [insertItems, List.filterMap_cons, hrend]
    simp only [List.map_cons]
    rw [ih (fun q hq => h q (by simp [hq])) (nid + 1)]
    rfl

/-- C10: after any successful `create_invoice` (against a store whose
invoice ids and item `invoice_id`s are below the autoincrement counter and
whose item counter has started at 1, as autoincrement guarantees), every
item of the create-path response has the placeholder id 0, while `get` on
the same invoice returns the items with the storage-assigned consecutive
ids `next_item_id, next_item_id + 1, ...`, none of which is 0 — so the two
payloads differ in the item id field on every line. -/
theorem C10_item_id_placeholder (db : DB) (req : InvoiceCreate)
    (resp : InvoiceResponse) (db₂ : DB)
    (hok : create_invoice req db = .ok (resp, db₂))
    (hfresh : ∀ i ∈ db.invoices, i.id < db.next_invoice_id)
    (hdangling : ∀ it ∈ db.invoice_items, it.invoice_id < db.next_invoice_id)
    (hpos : 1 ≤ db.next_item_id) :
    (∀ it ∈ resp.items, it.id = 0) ∧
    ∃ detail, get_invoice resp.id db₂ = .ok detail ∧
      detail.items.map (fun it => it.id) =
        List.range' db.next_item_id req.items.length ∧
      ∀ it ∈ detail.items, it.id ≠ 0 := by
  obtain ⟨client, ps, tax, tot, hc, hcalc, hdup, hresp, hdb⟩ :=
    create_invoice_ok_inv db req resp db₂ hok
  obtain ⟨hfa, htax, htot⟩ := calc_totals_inv db req.items ps tax tot hcalc
  subst hresp
  subst hdb
  constructor
  · intro it hit
    obtain ⟨p, hp, hpe⟩ := List.mem_map.mp hit
    rw [← hpe]
  · have hfindinv : ((db.invoices ++
        [(⟨db.next_invoice_id, req.invoice_no, req.issue_date, req.due_date,
          req.client_id, tax, tot⟩ : InvoiceRow)]).find?
          (fun i => i.id == db.next_invoice_id)) =
        some (⟨db.next_invoice_id, req.invoice_no, req.issue_date,
          req.due_date, req.client_id, tax, tot⟩ : InvoiceRow) := by
      rw [List.find?_append]
      have hnone : db.invoices.find? (fun i => i.id == db.next_invoice_id)
          = none := by
        rw [List.find?_eq_none]
        intro i hi
        have := hfresh i hi
        simp only [beq_iff_eq]
        omega
      rw [hnone]
      simp
    have hfilr : ((db.invoice_items ++
        insertItems db.next_invoice_id db.next_item_id ps).filter
          (fun ii => ii.invoice_id == db.next_invoice_id)) =
        insertItems db.next_invoice_id db.next_item_id ps := by
      rw [List.filter_append]
      have h₁ : db.invoice_items.filter
          (fun ii => ii.invoice_id == db.next_invoice_id) = [] := by
        rw [List.filter_eq_nil_iff]
        intro it hit
        have := hdangling it hit
        simp only [beq_iff_eq]
        omega
      have h₂ : ((insertItems db.next_invoice_id db.next_item_id ps).filter
          (fun ii => ii.invoice_id == db.next_invoice_id)) =
          insertItems db.next_invoice_id db.next_item_id ps := by
        rw [List.filter_eq_self]
        intro row hrow
        have := insertItems_invoice_id db.next_invoice_id ps
          db.next_item_id row hrow
        simp [this]
      rw [h₁, h₂, List.nil_append]
    have hrend : renderItem { db with
        invoices := db.invoices ++
          [(⟨db.next_invoice_id, req.invoice_no, req.issue_date,
            req.due_date, req.client_id, tax, tot⟩ : InvoiceRow)],
        invoice_items := db.invoice_items ++
          insertItems db.next_invoice_id db.next_item_id ps,
        next_invoice_id := db.next_invoice_id + 1,
        next_item_id := db.next_item_id + ps.length } = renderItem db := rfl
    have hprod : ∀ p ∈ ps, ∃ prod,
        findProduct db p.product_id = some prod ∧
        prod.name = p.product_name := by
      intro p hp
      obtain ⟨a, ha, hr⟩ := forall₂_mem_right hfa p hp
      exact resolvesTo_self_lookup db a p hr
    have hlen : req.items.length = ps.length := hfa.length_eq
    refine ⟨⟨db.next_invoice_id, req.invoice_no, req.issue_date,
      req.due_date, client.name, tax, tot,
      ((insertItems db.next_invoice_id db.next_item_id ps).filterMap
        (renderItem db))⟩, ?_, ?_, ?_⟩
    · show get_invoice db.next_invoice_id _ = _
      simp only [get_invoice, hfindinv, hfilr, hrend, hc]
    · show ((insertItems db.next_invoice_id db.next_item_id ps).filterMap
        (renderItem db)).map (fun it => it.id) = _
      rw [filterMap_renderItem_insertItems db db.next_invoice_id ps hprod
        db.next_item_id, hlen]
    · intro it hit
      show it.id ≠ 0
      have hmem : it.id ∈ List.range' db.next_item_id ps.length := by
        rw [← filterMap_renderItem_insertItems db db.next_invoice_id ps hprod
          db.next_item_id]
        exact List.mem_map_of_mem _ hit
      obtain ⟨i, hi, hie⟩ := List.mem_range'.mp hmem
      omega

/-- Witness for C10: creating `exReq` against `exDb` gives response items
with id 0, while `get` on the created invoice returns items with ids 1 and
2. -/
theorem C10_item_id_placeholder_witness :
    (∀ it ∈ exResp1.items, it.id = 0) ∧
    ∃ detail, get_invoice exResp1.id exDb1 = .ok detail ∧
      detail.items.map (fun it => it.id) =
        List.range' exDb.next_item_id exReq.items.length ∧
      ∀ it ∈ detail.items, it.id ≠ 0 := by
  refine C10_item_id_placeholder exDb exReq exResp1 exDb1 ?_ ?_ ?_ ?_
  · simp [create_invoice, calculate_invoice_totals, priceItems, findProduct,
      insertItems, exReq, exItems, exDb, exResp1, exDb1]
    norm_num
  · decide
  · decide
  · decide
